import Mathlib

/-!
Verification of the two example programs in this repository:

* `examples/bazel/function-test.cpp` — a GoogleTest binary with one test case
  `TEST(Fn, Basic)` asserting `EXPECT_EQ(100, fn())`, and a `main` that runs
  all tests and returns the test framework's exit code.
* `examples/cpp-3rdparty/main.cpp` — a gflags demo: `DEFINE_int32(x, 1, "")`,
  `main` parses the command line with `gflags::ParseCommandLineFlags` and
  prints `FLAGS_x` followed by `std::endl` to standard output.

The authored code is embedded directly.  The third-party libraries (gflags
command-line parsing, GoogleTest's runner) are modelled by executable Lean
functions that follow their documented behaviour on the decimal command lines
the spec talks about: a flag token is `--x`/`-x` with the value inline after
`=` or in the following argument, `--` ends flag processing, an unknown flag
or a malformed / out-of-int32-range value makes the parser report an error
and terminate the process with a nonzero status before `main`'s body runs.
Command lines are modelled as the list of arguments after the program name.
-/

/-- Decimal digit characters produced for a value: the digits of `n`, most
significant first, using fuel for structural recursion (fuel `n + 1` always
suffices because the recursion divides `n` by 10 each step). -/
def natDigitsF : Nat → Nat → List Char
  | 0, _ => []
  | fuel + 1, n =>
    if n < 10 then [Nat.digitChar n]
    else natDigitsF fuel (n / 10) ++ [Nat.digitChar (n % 10)]

/-- Decimal representation of a natural number, most significant digit first. -/
def natDigits (n : Nat) : List Char := natDigitsF (n + 1) n

/-- Numeric value of a list of decimal digit characters. -/
def digitsVal (cs : List Char) : Nat :=
  cs.foldl (fun a c => 10 * a + (c.toNat - 48)) 0

/-- Parse a nonempty all-digit character list as a natural number. -/
def parseNatDigits : List Char → Option Nat
  | [] => none
  | c :: cs =>
    if (c :: cs).all Char.isDigit then some (digitsVal (c :: cs)) else none

/-- Parse an optionally `-`-signed decimal integer (the decimal fragment of
the numeric syntax accepted by the gflags value parser). -/
def parseDecInt : List Char → Option Int
  | [] => none
  | c :: cs =>
    if c = '-' then (parseNatDigits cs).map (fun m => -(m : Int))
    else (parseNatDigits (c :: cs)).map (fun m => (m : Int))

/-- Decimal rendering of an integer, as `std::ostream` prints an `int32`. -/
def renderInt (n : Int) : List Char :=
  if n < 0 then '-' :: natDigits n.natAbs else natDigits n.toNat

/-- Smallest value of the C++ `int32` type backing `DEFINE_int32`. -/
def int32Min : Int := -(2 ^ 31)

/-- Largest value of the C++ `int32` type backing `DEFINE_int32`. -/
def int32Max : Int := 2 ^ 31 - 1

/-- Value parser for an `int32` flag: gflags parses the decimal text and
rejects values that do not fit in 32-bit two's complement. -/
def parseInt32 (cs : List Char) : Option Int :=
  (parseDecInt cs).bind
    (fun n => if int32Min ≤ n ∧ n ≤ int32Max then some n else none)

/-- Shape of one command-line token as seen by the flag parser. -/
inductive ArgKind where
  | xBare
  | xAssign (v : List Char)
  | terminator
  | otherFlag
  | positional
deriving DecidableEq

/-- Classify one token: `--x`/`-x` name the flag with the value in the next
token, `--x=v`/`-x=v` carry it inline, `--` ends flag processing, any other
dash token is an unknown flag, everything else is positional. -/
def classifyArg : List Char → ArgKind
  | '-' :: '-' :: 'x' :: [] => .xBare
  | '-' :: '-' :: 'x' :: '=' :: v => .xAssign v
  | '-' :: 'x' :: [] => .xBare
  | '-' :: 'x' :: '=' :: v => .xAssign v
  | '-' :: '-' :: [] => .terminator
  | '-' :: [] => .positional
  | '-' :: _ => .otherFlag
  | _ => .positional

/-- The gflags command-line scan for the single registered flag `x`: starting
from the current flag value it folds over the arguments; a parse failure
(unknown flag, missing or malformed or out-of-range value) is `Except.error`,
mirroring gflags reporting an error and exiting. -/
def parseFlagArgs : List String → Int → Except Unit Int
  | [], v => .ok v
  | a :: rest, v =>
    match classifyArg a.data with
    | .xBare =>
      match rest with
      | [] => .error ()
      | b :: rest2 =>
        match parseInt32 b.data with
        | some m => parseFlagArgs rest2 m
        | none => .error ()
    | .xAssign w =>
      match parseInt32 w with
      | some m => parseFlagArgs rest m
      | none => .error ()
    | .terminator => .ok v
    | .otherFlag => .error ()
    | .positional => parseFlagArgs rest v

/-- Default value of flag `x`, from `DEFINE_int32(x, 1, "")`. -/
def defaultX : Int := 1

/-- Observable events of one process run of the flag demo. -/
inductive Event where
  | readFlagX (v : Int)
  | printStdout (s : List Char)
  | readFile (path : List Char)
  | readEnvVar (nm : List Char)
  | writeFile (path : List Char)
deriving DecidableEq

/-- Outcome of one process run: its event trace and its exit status. -/
structure RunResult where
  trace : List Event
  exitCode : Nat
deriving DecidableEq

/-- The flag demo's `main`: parse the flags, then
`std::cout << FLAGS_x << std::endl` and return 0.  When the parser rejects
the command line the process dies inside `ParseCommandLineFlags` with a
nonzero status and `main`'s body never runs. -/
def flagDemoRun (args : List String) : RunResult :=
  match parseFlagArgs args defaultX with
  | .ok v => ⟨[.readFlagX v, .printStdout (renderInt v ++ ['\n'])], 0⟩
  | .error _ => ⟨[], 1⟩

/-- Everything a run wrote to standard output, in order. -/
def stdoutOf (r : RunResult) : List Char :=
  r.trace.foldr
    (fun e acc =>
      match e with
      | .printStdout s => s ++ acc
      | _ => acc)
    []

/-- Whether an event is a write to standard output. -/
def isPrintEvent : Event → Bool
  | .printStdout _ => true
  | _ => false

/-- Whether an event reads the flag's value. -/
def isReadFlagEvent : Event → Bool
  | .readFlagX _ => true
  | _ => false

/-- Whether an event touches a file, an environment variable, or persists
state outside the process. -/
def isFileOrEnvEvent : Event → Bool
  | .readFile _ => true
  | .readEnvVar _ => true
  | .writeFile _ => true
  | _ => false

/-- Modelled from the spec: the function under test `fn` declared in
`function.hpp`, whose definition is not part of this excerpt.  The spec says
it "exposes one operation, no inputs, returns a fixed integer constant" and
that the constant is 100. -/
def fn : Unit → Int := fun _ => 100

/-- The assertions executed by `TEST(Fn, Basic)`: one `EXPECT_EQ(100, fn())`. -/
def fnBasicAssertions : List Bool := [100 == fn ()]

/-- Number of passing assertions reported by the test binary. -/
def passedAssertions : Nat := (fnBasicAssertions.filter (fun b => b)).length

/-- Number of failing assertions reported by the test binary. -/
def failedAssertions : Nat := (fnBasicAssertions.filter (fun b => !b)).length

/-- The test binary's `main`: run all tests and return 0 exactly when every
assertion passed (GoogleTest's `RUN_ALL_TESTS` convention). -/
def testMainRun (_args : List String) : Nat :=
  if failedAssertions = 0 then 0 else 1

/-- Modelled from the spec: program state threaded through a call of `fn`,
which the spec says has "no error conditions, no side effects, no state
machine"; the state is an arbitrary memory. -/
structure ProgState where
  mem : Nat → Int

/-- Modelled from the spec: `fn` viewed as a state transformer; it returns
its constant and leaves the state untouched. -/
def fnSt (s : ProgState) : Int × ProgState := (fn (), s)

theorem digitChar_isDigit (d : Nat) (h : d < 10) :
    (Nat.digitChar d).isDigit = true := by
  interval_cases d <;> decide

theorem toNat_digitChar (d : Nat) (h : d < 10) :
    (Nat.digitChar d).toNat = 48 + d := by
  interval_cases d <;> decide

theorem digitsVal_concat (cs : List Char) (c : Char) :
    digitsVal (cs ++ [c]) = 10 * digitsVal cs + (c.toNat - 48) := by
  simp [digitsVal, List.foldl_append]

theorem natDigitsF_ne_nil (fuel n : Nat) : natDigitsF (fuel + 1) n ≠ [] := by
  rw [natDigitsF]
  by_cases h : n < 10 <;> simp [h]

theorem natDigitsF_all_digits (fuel : Nat) :
    ∀ n, (natDigitsF fuel n).all Char.isDigit = true := by
  induction fuel with
  | zero => intro n; rfl
  | succ fuel ih =>
    intro n
    rw [natDigitsF]
    by_cases h : n < 10
    · simp [h, digitChar_isDigit n h]
    · have h10 : n % 10 < 10 := Nat.mod_lt _ (by omega)
      simp [h, List.all_append, ih (n / 10), digitChar_isDigit _ h10]

theorem digitsVal_natDigitsF :
    ∀ fuel n, n < fuel → digitsVal (natDigitsF fuel n) = n := by
  intro fuel
  induction fuel with
  | zero => intro n h; omega
  | succ fuel ih =>
    intro n h
    rw [natDigitsF]
    by_cases h10 : n < 10
    · rw [if_pos h10]
      simp only [digitsVal, List.foldl, toNat_digitChar n h10]
      omega
    · rw [if_neg h10, digitsVal_concat, ih (n / 10) (by omega),
        toNat_digitChar _ (Nat.mod_lt _ (by omega))]
      omega

theorem parseNatDigits_natDigits (n : Nat) :
    parseNatDigits (natDigits n) = some n := by
  have h1 := natDigitsF_ne_nil n n
  have h2 := natDigitsF_all_digits (n + 1) n
  have h3 := digitsVal_natDigitsF (n + 1) n (Nat.lt_succ_self n)
  rw [natDigits]
  cases hc : natDigitsF (n + 1) n with
  | nil => exact absurd hc h1
  | cons c cs =>
    rw [hc] at h2 h3
    simp [parseNatDigits, h2, h3]

theorem natDigits_head_digit (n : Nat) :
    ∀ c cs, natDigits n = c :: cs → c.isDigit = true := by
  intro c cs h
  have h2 := natDigitsF_all_digits (n + 1) n
  rw [natDigits] at h
  rw [h, List.all_cons] at h2
  exact (Bool.and_eq_true_iff.mp h2).1

theorem parseDecInt_renderInt (n : Int) : parseDecInt (renderInt n) = some n := by
  rw [renderInt]
  by_cases h : n < 0
  · rw [if_pos h, parseDecInt, if_pos rfl, parseNatDigits_natDigits]
    have hm : (some n.natAbs).map (fun m => -(m : Int)) = some (-(n.natAbs : Int)) := rfl
    rw [hm]
    congr 1
    omega
  · rw [if_neg h]
    cases hc : natDigits n.toNat with
    | nil =>
      rw [natDigits] at hc
      exact absurd hc (natDigitsF_ne_nil _ _)
    | cons c cs =>
      have hd : c.isDigit = true := natDigits_head_digit _ _ _ hc
      have hne : c ≠ '-' := by
        intro hcc
        rw [hcc] at hd
        exact absurd hd (by decide)
      rw [parseDecInt, if_neg hne, ← hc, parseNatDigits_natDigits]
      have hm : (some n.toNat).map (fun m => (m : Int)) = some ((n.toNat : Int)) := rfl
      rw [hm]
      congr 1
      omega

theorem parseInt32_renderInt (n : Int) :
    parseInt32 (renderInt n) =
      if int32Min ≤ n ∧ n ≤ int32Max then some n else none := by
  rw [parseInt32, parseDecInt_renderInt]
  rfl

theorem flagDemoRun_ok (args : List String) (v : Int)
    (h : parseFlagArgs args defaultX = .ok v) :
    flagDemoRun args = ⟨[.readFlagX v, .printStdout (renderInt v ++ ['\n'])], 0⟩ := by
  rw [flagDemoRun, h]

theorem flagDemoRun_err (args : List String) (e : Unit)
    (h : parseFlagArgs args defaultX = .error e) :
    flagDemoRun args = ⟨[], 1⟩ := by
  rw [flagDemoRun, h]

theorem parseFlagArgs_xPair (s : String) (v : Int) :
    parseFlagArgs ["--x", s] v =
      match parseInt32 s.data with
      | some m => Except.ok m
      | none => Except.error () := rfl

/-- Claim C1: invoking the function under test `fn`, which takes no inputs,
always returns exactly the integer 100. -/
theorem fn_always_returns_100 : ∀ u : Unit, fn u = 100 := fun _ => rfl

/-- Claim C2: run with no command-line arguments, the flag demo prints the
default flag value 1 followed by a newline to standard output. -/
theorem flagDemo_no_args_prints_default_one :
    stdoutOf (flagDemoRun []) = "1\n".data := by decide

/-- Claim C3: run with arguments `--x 2`, the flag demo prints 2 followed by
a newline to standard output. -/
theorem flagDemo_x2_prints_two :
    stdoutOf (flagDemoRun ["--x", "2"]) = "2\n".data := by decide

/-- Claim C4: on every run of the flag demo where the flag parser accepts
the arguments, the program prints the value of flag `--x` followed by a
newline and exits with status 0. -/
theorem flagDemo_success_prints_flag_and_exits_zero :
    ∀ (args : List String) (v : Int), parseFlagArgs args defaultX = .ok v →
      stdoutOf (flagDemoRun args) = renderInt v ++ ['\n'] ∧
      (flagDemoRun args).exitCode = 0 := by
  intro args v h
  rw [flagDemoRun_ok args v h]
  refine ⟨?_, rfl⟩
  simp [stdoutOf]

/-- Witness for C4 at the concrete command line `--x 2`. -/
theorem flagDemo_success_prints_flag_and_exits_zero_witness :
    stdoutOf (flagDemoRun ["--x", "2"]) = renderInt 2 ++ ['\n'] ∧
    (flagDemoRun ["--x", "2"]).exitCode = 0 :=
  flagDemo_success_prints_flag_and_exits_zero ["--x", "2"] 2 (by rfl)

/-- Claim C5: running the test binary with no arguments exits with status 0
and reports exactly one passing assertion. -/
theorem testBinary_no_args_exits_zero_one_pass :
    testMainRun [] = 0 ∧ passedAssertions = 1 := by decide

/-- Claim C6: a call of `fn` returns 100 and leaves every program state
exactly as it was: no side effects, no mutation, no error conditions. -/
theorem fn_effect_free : ∀ s : ProgState, fnSt s = (100, s) := fun _ => rfl

/-- Counterexample to C7 as stated: on the run with arguments `--x oops`
the flag parser rejects the malformed value, the process dies with status 1,
and the flag value is not printed at all — not printed exactly once. -/
theorem flagDemo_run_without_print_counterexample :
    ¬ ((flagDemoRun ["--x", "oops"]).trace.countP isPrintEvent = 1) := by
  decide

/-- Claim C7 (amended): on every run of the flag demo no file, environment
variable, or persisted state is touched; and on every run whose arguments
the flag parser accepts, the flag value is read exactly once and printed
exactly once. -/
theorem flagDemo_effect_frame :
    ∀ args : List String,
      (flagDemoRun args).trace.countP isFileOrEnvEvent = 0 ∧
      (∀ v : Int, parseFlagArgs args defaultX = .ok v →
        (flagDemoRun args).trace.countP isReadFlagEvent = 1 ∧
        (flagDemoRun args).trace.countP isPrintEvent = 1) := by
  intro args
  constructor
  · rw [flagDemoRun]
    cases parseFlagArgs args defaultX <;> rfl
  · intro v h
    rw [flagDemoRun_ok args v h]
    exact ⟨rfl, rfl⟩

/-- Witness for the amended C7 at the concrete command line `--x 2`. -/
theorem flagDemo_effect_frame_witness :
    (flagDemoRun ["--x", "2"]).trace.countP isFileOrEnvEvent = 0 ∧
    ((flagDemoRun ["--x", "2"]).trace.countP isReadFlagEvent = 1 ∧
     (flagDemoRun ["--x", "2"]).trace.countP isPrintEvent = 1) :=
  ⟨(flagDemo_effect_frame ["--x", "2"]).1,
   (flagDemo_effect_frame ["--x", "2"]).2 2 (by rfl)⟩

/-- Claim C8: both programs are run-to-completion processes — for every
command-line argument list each one terminates with a result (the embedded
semantics is total). -/
theorem both_programs_terminate :
    ∀ args : List String,
      (∃ r : RunResult, flagDemoRun args = r) ∧
      (∃ c : Nat, testMainRun args = c) :=
  fun _ => ⟨⟨_, rfl⟩, ⟨_, rfl⟩⟩

/-- Claim C9: the flag demo is deterministic — two runs on the same argument
list produce the same standard output and the same exit status. -/
theorem flagDemo_deterministic :
    ∀ (args : List String) (r1 r2 : RunResult),
      flagDemoRun args = r1 → flagDemoRun args = r2 →
      stdoutOf r1 = stdoutOf r2 ∧ r1.exitCode = r2.exitCode := by
  intro args r1 r2 h1 h2
  rw [← h1, ← h2]
  exact ⟨rfl, rfl⟩

/-- Witness for C9 on the empty command line. -/
theorem flagDemo_deterministic_witness :
    stdoutOf (flagDemoRun []) = stdoutOf (flagDemoRun []) ∧
    (flagDemoRun []).exitCode = (flagDemoRun []).exitCode :=
  flagDemo_deterministic [] (flagDemoRun []) (flagDemoRun []) rfl rfl

/-- Claim C10: the flag `--x` is a 32-bit signed integer — for every integer
`n` in `[-2^31, 2^31 - 1]` passed in decimal as `--x n` the demo prints
exactly `n` (and a newline) and exits 0, while every value outside that
range is rejected by the flag parser (the process dies with status 1 and
prints nothing) rather than silently wrapped. -/
theorem flagX_int32_range_behavior :
    ∀ n : Int,
      (int32Min ≤ n ∧ n ≤ int32Max →
        stdoutOf (flagDemoRun ["--x", String.mk (renderInt n)]) =
          renderInt n ++ ['\n'] ∧
        (flagDemoRun ["--x", String.mk (renderInt n)]).exitCode = 0) ∧
      (¬ (int32Min ≤ n ∧ n ≤ int32Max) →
        flagDemoRun ["--x", String.mk (renderInt n)] = ⟨[], 1⟩) := by
  intro n
  have hp : parseFlagArgs ["--x", String.mk (renderInt n)] defaultX =
      match parseInt32 (renderInt n) with
      | some m => Except.ok m
      | none => Except.error () := parseFlagArgs_xPair (String.mk (renderInt n)) defaultX
  rw [parseInt32_renderInt] at hp
  constructor
  · intro hr
    rw [if_pos hr] at hp
    have hok : parseFlagArgs ["--x", String.mk (renderInt n)] defaultX = .ok n := hp
    rw [flagDemoRun_ok _ n hok]
    refine ⟨?_, rfl⟩
    simp [stdoutOf]
  · intro hr
    rw [if_neg hr] at hp
    have herr : parseFlagArgs ["--x", String.mk (renderInt n)] defaultX = .error () := hp
    exact flagDemoRun_err _ () herr

/-- Witness for C10: the in-range value 2 is printed and the out-of-range
value `2 ^ 31` is rejected. -/
theorem flagX_int32_range_behavior_witness :
    (stdoutOf (flagDemoRun ["--x", String.mk (renderInt 2)]) =
       renderInt 2 ++ ['\n'] ∧
     (flagDemoRun ["--x", String.mk (renderInt 2)]).exitCode = 0) ∧
    flagDemoRun ["--x", String.mk (renderInt (2 ^ 31))] = ⟨[], 1⟩ :=
  ⟨(flagX_int32_range_behavior 2).1 (by decide),
   (flagX_int32_range_behavior (2 ^ 31)).2 (by decide)⟩
